import Mathlib

/-!
Verification of the `preloader` client (src/client.c) and the aarch64
entry-point patcher (src/arch/arch_aarch64.c), shallowly embedded in Lean.
Machine integers are modelled as `Nat`/`Int` with explicit reduction
modulo `2 ^ 32` where 32-bit overflow matters.
-/

namespace Preloader

/-- Reinterpret an unsigned 32-bit pattern as a signed `int32` value
(two's complement), i.e. the conversion performed when the C expression
for the decoded message is stored into an `int32_t`. -/
def toInt32 (n : Nat) : Int :=
  if n % 4294967296 < 2147483648 then ((n % 4294967296 : Nat) : Int)
  else ((n % 4294967296 : Nat) : Int) - 4294967296

/-- `int32_to_msg` (src/client.c:54): big-endian encoding of an `int32`.
The C code arithmetically shifts the signed value and truncates each shift
to `uint8_t`; on the two's-complement bit pattern `u` this is byte
extraction by division and reduction modulo 256. -/
def int32_to_msg (v : Int) : List Nat :=
  let u : Nat := (v % 4294967296).toNat
  [u / 2 ^ 24 % 256, u / 2 ^ 16 % 256, u / 2 ^ 8 % 256, u % 256]

/-- `msg_to_int32` (src/client.c:71): big-endian decoding.  The C source
computes `(msg[3] << 0) | (msg[2] << 8) | (msg[1] << 16) | (msg[0] << 24)`
and stores it into an `int32_t`. -/
def msg_to_int32 (b0 b1 b2 b3 : Nat) : Int :=
  toInt32 ((((b3 <<< 0) ||| (b2 <<< 8)) ||| (b1 <<< 16)) ||| (b0 <<< 24))

/-- Decoding applied to a 4-byte buffer (as `main` does with `ret_buff`). -/
def msg_to_int32_bytes (l : List Nat) : Int :=
  msg_to_int32 (l.getD 0 0) (l.getD 1 0) (l.getD 2 0) (l.getD 3 0)

/-- The tail of `main`: `ret` is initialised to 42; a `recv` of the 4-byte
status buffer that does not return exactly 4 bytes jumps to `out` leaving
`ret = 42`, otherwise `ret = msg_to_int32(ret_buff)`.  The `recv` outcome
is `none` on error and `some bs` when the bytes `bs` were received. -/
def client_exit_status : Option (List Nat) → Int
  | none => 42
  | some bs => if bs.length = 4 then msg_to_int32_bytes bs else 42

/-- Specification-side big-endian `int32` reading of a 4-byte buffer. -/
def decodeBE (bs : List Nat) : Int :=
  let n : Nat := bs.getD 0 0 * 2 ^ 24 + bs.getD 1 0 * 2 ^ 16 +
    bs.getD 2 0 * 2 ^ 8 + bs.getD 3 0
  if n < 2147483648 then (n : Int) else (n : Int) - 4294967296

/-- The byte sequence written by the `strcpy` loop of `prepare_data`: each
field is copied and followed by its NUL terminator.  C strings are
modelled as NUL-free byte lists, so `strlen` is the list length. -/
def joinFields : List (List Nat) → List Nat
  | [] => []
  | f :: fs => f ++ 0 :: joinFields fs

/-- `amnt` as computed by `prepare_data`:
`strlen(cwd) + Σ strlen(argv[i]) + argc + 1`. -/
def prepare_amnt (cwd : List Nat) (args : List (List Nat)) : Nat :=
  cwd.length + (args.map List.length).sum + args.length + 1

/-- The payload buffer built by `prepare_data`: the current working
directory followed by the arguments, every field NUL-terminated. -/
def prepare_payload (cwd : List Nat) (args : List (List Nat)) : List Nat :=
  joinFields (cwd :: args)

/-- `Modelled from the spec:` the unmarshalling side (the server's parsing
of the NUL-delimited payload) is not part of this repository; the spec
describes the payload as a sequence of NUL-terminated fields, so splitting
reads one field up to each NUL delimiter and drops the delimiter. -/
def splitFields (l : List Nat) : List (List Nat) :=
  if h : l = [] then []
  else
    l.takeWhile (fun b => b != 0) ::
      splitFields ((l.dropWhile (fun b => b != 0)).drop 1)
termination_by l.length
decreasing_by
  have h1 : (l.dropWhile (fun b => b != 0)).length ≤ l.length :=
    (List.dropWhile_sublist _).length_le
  have h2 : 0 < l.length := List.length_pos.mpr h
  simp only [List.length_drop]
  omega

/-- One `send(2)` outcome supplied by the environment: `none` is a hard
socket error (`-1`), `some k` means `k` bytes were accepted. -/
abbrev SendResult := Option Nat

/-- The retry loop of `send_all`: while bytes remain, perform the next
`send`; a `-1` aborts with `-1`, otherwise advance by the accepted count.
Returns the C return value (0 success, -1 failure) paired with the total
number of bytes handed to the socket.  An exhausted outcome list stands
for a run that has not reached success. -/
def send_all_go : List SendResult → Nat → Int × Nat
  | _, 0 => (0, 0)
  | [], _ + 1 => (-1, 0)
  | none :: _, _ + 1 => (-1, 0)
  | some k :: rs, n + 1 =>
      let p := send_all_go rs (n + 1 - k)
      (p.1, k + p.2)

/-- `send_all` (src/client.c:83): fails outright on a negative descriptor,
otherwise runs the retry loop over the whole buffer length. -/
def send_all (conn : Int) (rs : List SendResult) (len : Nat) : Int × Nat :=
  if conn < 0 then (-1, 0) else send_all_go rs len

/-- POSIX well-formedness of the environment: each successful `send`
accepts at most the number of bytes it was asked to send. -/
def respOk : List SendResult → Nat → Prop
  | _, 0 => True
  | [], _ + 1 => True
  | none :: _, _ + 1 => True
  | some k :: rs, n + 1 => k ≤ n + 1 ∧ respOk rs (n + 1 - k)

/-- The `isspace` characters rejected by `str2int` at position 0. -/
def isSpaceChar (c : Char) : Bool :=
  c = ' ' || c = '\t' || c = '\n' || c = '\x0b' || c = '\x0c' || c = '\r'

def isDigitChar (c : Char) : Bool :=
  decide ('0' ≤ c) && decide (c ≤ '9')

/-- The digit run consumed by `strtol`; `none` when the characters are not
all decimal digits or there is no digit at all (in which case `str2int`
sees a nonempty `*end` and fails). -/
def digitsToNat (cs : List Char) : Option Nat :=
  if cs = [] then none
  else if cs.all isDigitChar then
    some (cs.foldl (fun acc c => acc * 10 + (c.toNat - 48)) 0)
  else none

/-- `str2int` (src/client.c:168): rejects an empty string or leading
whitespace, parses an optional sign and a full run of decimal digits with
nothing trailing, and rejects values outside the `int` range. -/
def str2int (s : String) : Option Int :=
  match s.toList with
  | [] => none
  | c :: rest =>
    if isSpaceChar c then none
    else
      let sd : Int × List Char :=
        if c = '-' then (-1, rest)
        else if c = '+' then (1, rest)
        else (1, c :: rest)
      match digitsToNat sd.2 with
      | none => none
      | some n =>
        let v : Int := sd.1 * n
        if v > 2147483647 ∨ v < -2147483648 then none else some v

def PRG_NAME : String := "client"

def SV_DEFAULT_PORT : Int := 3636

/-- `parse_args` (src/client.c:206): `none` models the `usage()` exit.
When the invocation name matches the canonical name, an optional
`-p <port>` pair (validated to `[0, 65535]`) is consumed and the rest of
the vector is the remote command; otherwise the whole vector, invocation
name included, is the remote command and the port keeps its default. -/
def parse_args (argv : List String) : Option (Int × List String) :=
  if argv.length < 2 then none
  else
    match argv with
    | [] => none
    | name :: rest =>
      if name = PRG_NAME ∨ name = "./" ++ PRG_NAME then
        match rest with
        | [] => none
        | a1 :: rest2 =>
          if a1 = "-p" then
            if argv.length < 4 then none
            else
              match rest2 with
              | [] => none
              | pstr :: rest3 =>
                match str2int pstr with
                | none => none
                | some p =>
                  if p < 0 ∨ p > 65535 then none
                  else some (p, rest3)
          else some (SV_DEFAULT_PORT, rest)
      else some (SV_DEFAULT_PORT, argv)

/-- The hand-assembled aarch64 trampoline template: `ldr x1, 8`,
`blr x1`, followed by the 8-byte slot for the absolute target address. -/
def patch_template : List Nat :=
  [0x41, 0x00, 0x00, 0x58, 0x20, 0x00, 0x3f, 0xd6, 0, 0, 0, 0, 0, 0, 0, 0]

/-- The patcher's state: the `sizeof patch` bytes at `arch_addr_start`,
the mutable `patch` template and the static backup buffer `bck_start`. -/
structure ArchState where
  mem : List Nat
  patch : List Nat
  bck_start : List Nat
deriving DecidableEq

/-- `arch_patch_start` (src/arch/arch_aarch64.c:70): back up the target
bytes, write the 8 address-literal bytes into the tail of the template,
and copy the filled template over the target. -/
def arch_patch_start (hookAddr : List Nat) (s : ArchState) : ArchState :=
  let bck := s.mem
  let newPatch := s.patch.take 8 ++ hookAddr
  { mem := newPatch, patch := newPatch, bck_start := bck }

/-- `arch_restore_start` (src/arch/arch_aarch64.c:62): copy the backup
over the target and return `sizeof bck_start - 8`. -/
def arch_restore_start (s : ArchState) : ArchState × Nat :=
  ({ s with mem := s.bck_start }, s.bck_start.length - 8)

def POLLIN : Nat := 1

def POLLERR : Nat := 8

def POLLHUP : Nat := 16

def POLLNVAL : Nat := 32

structure Pollfd where
  fd : Int
  events : Nat
  revents : Nat
deriving DecidableEq

/-- `events_error` (src/client.c:266): scans the array and reports 1 when
`POLLHUP`, `POLLERR` or `POLLNVAL` is set — the C code reads the `events`
field (`ev = p->events`), not `revents`. -/
def events_error : List Pollfd → Bool
  | [] => false
  | p :: ps =>
    if p.events &&& POLLHUP ≠ 0 ∨ p.events &&& POLLERR ≠ 0 ∨
        p.events &&& POLLNVAL ≠ 0 then true
    else events_error ps

/-- What one `read(2)` on a relay source yields: an error, end of file, or
a nonempty chunk. -/
inductive ReadResult where
  | rrErr
  | rrEof
  | rrData
deriving DecidableEq

/-- `handle_poll_event` (src/client.c:308).  Result:
`(updated pollfd, descriptor shut down and closed (if any), is_eof, return value)`.
On `read <= 0` the socket side (`pfd->fd` when `is_sock`, else `out_fd`)
is shut down and closed, `pfd->fd` is set to `-1` and `-1` is returned,
with `is_eof` set exactly on the zero-byte read; on a successful read the
chunk is written to `out_fd` and a short write returns `-1`. -/
def handle_poll_event (pfd : Pollfd) (out_fd : Int) (is_sock : Bool)
    (rr : ReadResult) (writeOk : Bool) : Pollfd × Option Int × Bool × Int :=
  match rr with
  | .rrErr => ({ pfd with fd := -1 }, some (if is_sock then pfd.fd else out_fd),
      false, -1)
  | .rrEof => ({ pfd with fd := -1 }, some (if is_sock then pfd.fd else out_fd),
      true, -1)
  | .rrData => (pfd, none, false, if writeOk then 0 else -1)

/-- The three `pollfd` slots of `main` plus the list of descriptors that
have been shut down and closed so far. -/
structure RelayState where
  p0 : Pollfd
  p1 : Pollfd
  p2 : Pollfd
  closed : List Int
deriving DecidableEq

/-- The environment of one loop iteration: whether `poll` succeeded, the
`revents` it reports for each slot, and the outcome of the `read`/`write`
calls a serviced slot would perform. -/
structure LoopEnv where
  pollOk : Bool
  rev0 : Nat
  rev1 : Nat
  rev2 : Nat
  rr0 : ReadResult
  rr1 : ReadResult
  rr2 : ReadResult
  w0 : Bool
  w1 : Bool
  w2 : Bool
deriving DecidableEq

/-- `poll` fills `revents`; per POSIX a slot whose `fd` is negative is
ignored and its `revents` is 0. -/
def pollFill (e : LoopEnv) (s : RelayState) : RelayState :=
  { s with
    p0 := { s.p0 with revents := if s.p0.fd ≥ 0 then e.rev0 else 0 },
    p1 := { s.p1 with revents := if s.p1.fd ≥ 0 then e.rev1 else 0 },
    p2 := { s.p2 with revents := if s.p2.fd ≥ 0 then e.rev2 else 0 } }

/-- One iteration of the relay loop of `main` (src/client.c:400-421).
Returns the state after the iteration and `true` when the loop continues
(`false` when it breaks or the `poll` call failed).  Sources are serviced
in the fixed order stdout (to fd 1), stderr (to fd 2), stdin (to
`sock_stdin`); only for local stdin does a clean EOF avoid the break. -/
def relayStep (sock_stdin : Int) (e : LoopEnv) (s : RelayState) :
    RelayState × Bool :=
  if e.pollOk = false then (s, false)
  else
    let s1 := pollFill e s
    if events_error [s1.p0, s1.p1, s1.p2] then (s1, false)
    else
      let r0 :=
        if s1.p0.revents &&& POLLIN ≠ 0 then
          let h := handle_poll_event s1.p0 1 true e.rr0 e.w0
          ({ s1 with p0 := h.1, closed := s1.closed ++ h.2.1.toList },
            decide (h.2.2.2 < 0))
        else (s1, false)
      if r0.2 then (r0.1, false)
      else
        let s2 := r0.1
        let r1 :=
          if s2.p1.revents &&& POLLIN ≠ 0 then
            let h := handle_poll_event s2.p1 2 true e.rr1 e.w1
            ({ s2 with p1 := h.1, closed := s2.closed ++ h.2.1.toList },
              decide (h.2.2.2 < 0))
          else (s2, false)
        if r1.2 then (r1.1, false)
        else
          let s3 := r1.1
          if s3.p2.revents &&& POLLIN ≠ 0 then
            let h := handle_poll_event s3.p2 sock_stdin false e.rr2 e.w2
            let s4 := { s3 with p2 := h.1, closed := s3.closed ++ h.2.1.toList }
            if decide (h.2.2.2 < 0) && !h.2.2.1 then (s4, false) else (s4, true)
          else (s3, true)

/-- Runs the relay loop over a finite schedule of iteration environments,
stopping as soon as an iteration breaks. -/
def relayRun (sock_stdin : Int) (envs : List LoopEnv) (s : RelayState) :
    RelayState :=
  match envs with
  | [] => s
  | e :: es =>
    let r := relayStep sock_stdin e s
    if r.2 then relayRun sock_stdin es r.1 else r.1

/-- Externally observable actions of `main` between argument parsing and
the relay loop. -/
inductive Action where
  | conn (port : Nat) (ok : Bool)
  | send (idx : Nat) (ok : Bool)
  | die
  | relay
deriving DecidableEq

/-- Outcomes the environment assigns to each `connect` (by port) and to
each of the three `send_all` calls (by index). -/
structure StartupEnv where
  connOk : Nat → Bool
  sendOk : Nat → Bool

/-- The action trace of `main` (src/client.c:374-391): connect to the
control port, send `argc`, `amt_bytes` and the payload on it, then connect
to the stdout, stderr and stdin ports; every failure prints an error and
exits immediately (`die`). -/
def clientStartup (port : Nat) (env : StartupEnv) : List Action :=
  Action.conn port (env.connOk port) ::
    if env.connOk port = false then [Action.die]
    else Action.send 0 (env.sendOk 0) ::
      if env.sendOk 0 = false then [Action.die]
      else Action.send 1 (env.sendOk 1) ::
        if env.sendOk 1 = false then [Action.die]
        else Action.send 2 (env.sendOk 2) ::
          if env.sendOk 2 = false then [Action.die]
          else Action.conn (port + 1) (env.connOk (port + 1)) ::
            if env.connOk (port + 1) = false then [Action.die]
            else Action.conn (port + 2) (env.connOk (port + 2)) ::
              if env.connOk (port + 2) = false then [Action.die]
              else Action.conn (port + 3) (env.connOk (port + 3)) ::
                if env.connOk (port + 3) = false then [Action.die]
                else [Action.relay]

/-- Did the trace transmit any data? -/
def sentData (tr : List Action) : Bool :=
  tr.any fun a => match a with
    | .send _ true => true
    | _ => false

/-- Does the trace contain a failed connect? -/
def hasFatalConn (tr : List Action) : Bool :=
  tr.any fun a => match a with
    | .conn _ false => true
    | _ => false

/-! ## Verified properties -/

/-- Bit-or of a low part below `2 ^ k` with a value shifted left by `k`
is plain addition. -/
lemma or_shiftLeft_eq_add (b k x : Nat) (h : x < 2 ^ k) :
    x ||| b <<< k = x + b * 2 ^ k := by
  rw [Nat.shiftLeft_eq, Nat.or_comm, Nat.mul_comm b, ← Nat.mul_add_lt_is_or h]
  exact Nat.add_comm _ _

/-- The bit-or chain in `msg_to_int32` is byte reassembly by addition. -/
lemma msg_to_int32_eq_sum (b0 b1 b2 b3 : Nat)
    (h0 : b0 < 256) (h1 : b1 < 256) (h2 : b2 < 256) (h3 : b3 < 256) :
    msg_to_int32 b0 b1 b2 b3 =
      toInt32 (b0 * 2 ^ 24 + b1 * 2 ^ 16 + b2 * 2 ^ 8 + b3) := by
  unfold msg_to_int32
  rw [Nat.shiftLeft_zero,
    or_shiftLeft_eq_add b2 8 b3 (by omega),
    or_shiftLeft_eq_add b1 16 _ (by omega),
    or_shiftLeft_eq_add b0 24 _ (by omega)]
  congr 1
  omega

/-- C5: the codec's encode and decode are total functions on 4 big-endian
bytes, and for every `int32` value `v` (including `INT32_MIN`, `INT32_MAX`,
`0` and `-1`), decoding the encoding of `v` yields `v`. -/
theorem codec_roundtrip (v : Int)
    (hlo : -2147483648 ≤ v) (hhi : v < 2147483648) :
    (int32_to_msg v).length = 4 ∧
    (∀ b ∈ int32_to_msg v, b < 256) ∧
    msg_to_int32_bytes (int32_to_msg v) = v := by
  refine ⟨rfl, ?_, ?_⟩
  · intro b hb
    simp only [int32_to_msg, List.mem_cons, List.not_mem_nil, or_false] at hb
    rcases hb with h | h | h | h <;> omega
  · have hu : ((v % 4294967296).toNat : Int) = v % 4294967296 := by
      have : (0 : Int) ≤ v % 4294967296 := Int.emod_nonneg v (by norm_num)
      omega
    simp only [msg_to_int32_bytes, int32_to_msg, List.getD_cons_zero,
      List.getD_cons_succ]
    rw [msg_to_int32_eq_sum _ _ _ _ (by omega) (by omega) (by omega) (by omega)]
    unfold toInt32
    split <;> omega

/-- Witness for C5 at `v = INT32_MIN`. -/
theorem codec_roundtrip_witness :
    (int32_to_msg (-2147483648)).length = 4 ∧
    (∀ b ∈ int32_to_msg (-2147483648), b < 256) ∧
    msg_to_int32_bytes (int32_to_msg (-2147483648)) = -2147483648 :=
  codec_roundtrip (-2147483648) (by norm_num) (by norm_num)

/-! ## Exit-status reader (src/client.c:363, 424-442) -/

/-- C4: if the status read yields exactly 4 bytes the client's exit value is
their big-endian `int32` decoding; on any short read (or read error) it is
exactly the sentinel 42. -/
theorem exit_status_spec (bs : List Nat) (hb : ∀ b ∈ bs, b < 256) :
    (bs.length = 4 → client_exit_status (some bs) = decodeBE bs) ∧
    (bs.length ≠ 4 → client_exit_status (some bs) = 42) ∧
    client_exit_status none = 42 := by
  refine ⟨?_, ?_, rfl⟩
  · intro hlen
    match bs, hlen with
    | [b0, b1, b2, b3], _ =>
      have h0 : b0 < 256 := hb _ (by simp)
      have h1 : b1 < 256 := hb _ (by simp)
      have h2 : b2 < 256 := hb _ (by simp)
      have h3 : b3 < 256 := hb _ (by simp)
      show msg_to_int32_bytes [b0, b1, b2, b3] = decodeBE [b0, b1, b2, b3]
      simp only [msg_to_int32_bytes, List.getD_cons_zero, List.getD_cons_succ]
      rw [msg_to_int32_eq_sum _ _ _ _ h0 h1 h2 h3]
      have hlt : b0 * 2 ^ 24 + b1 * 2 ^ 16 + b2 * 2 ^ 8 + b3 < 4294967296 := by
        omega
      simp only [toInt32, decodeBE, Nat.mod_eq_of_lt hlt, List.getD_cons_zero,
        List.getD_cons_succ]
  · intro hlen
    simp [client_exit_status, hlen]

/-- Witness for C4: a 4-byte status decodes big-endian; a 3-byte short read
yields 42. -/
theorem exit_status_spec_witness :
    client_exit_status (some [0, 0, 1, 44]) = decodeBE [0, 0, 1, 44] :=
  (exit_status_spec [0, 0, 1, 44] (by decide)).1 rfl

/-! ## Argument marshaller — `prepare_data` (src/client.c:117-152) -/

lemma joinFields_length (fs : List (List Nat)) :
    (joinFields fs).length = (fs.map List.length).sum + fs.length := by
  induction fs with
  | nil => rfl
  | cons f fs ih => simp [joinFields, ih]; omega

lemma splitFields_nil : splitFields [] = [] := by
  rw [splitFields]
  simp

lemma splitFields_cons (x : Nat) (xs : List Nat) :
    splitFields (x :: xs) =
      ((x :: xs).takeWhile (fun b => b != 0)) ::
        splitFields (((x :: xs).dropWhile (fun b => b != 0)).drop 1) := by
  rw [splitFields]
  simp

lemma takeWhile_field (f rest : List Nat) (hf : 0 ∉ f) :
    (f ++ 0 :: rest).takeWhile (fun b => b != 0) = f ∧
      (f ++ 0 :: rest).dropWhile (fun b => b != 0) = 0 :: rest := by
  induction f with
  | nil => simp [List.takeWhile, List.dropWhile]
  | cons a f ih =>
    have ha : a ≠ 0 := fun h => hf (h ▸ List.mem_cons_self a f)
    have hf2 : 0 ∉ f := fun h => hf (List.mem_cons_of_mem a h)
    obtain ⟨iht, ihd⟩ := ih hf2
    have hab : (a != 0) = true := by simpa using ha
    simp [List.takeWhile_cons, List.dropWhile_cons, hab, iht, ihd]

lemma splitFields_joinFields (fs : List (List Nat))
    (h : ∀ f ∈ fs, 0 ∉ f) : splitFields (joinFields fs) = fs := by
  induction fs with
  | nil => exact splitFields_nil
  | cons f fs ih =>
    have hf : 0 ∉ f := h f (List.mem_cons_self f fs)
    obtain ⟨ht, hd⟩ := takeWhile_field f (joinFields fs) hf
    have hjoin : joinFields (f :: fs) = f ++ 0 :: joinFields fs := rfl
    rw [hjoin]
    cases hfe : f ++ 0 :: joinFields fs with
    | nil => simp at hfe
    | cons y ys =>
      rw [← hfe, hfe, splitFields_cons, ← hfe, ht, hd]
      simp only [List.drop_one, List.tail_cons]
      rw [ih fun g hg => h g (List.mem_cons_of_mem f hg)]

/-- C6: the marshalled payload is exactly `cwd NUL arg_0 NUL … arg_{n-1}
NUL` with no padding, its declared length is
`len(cwd) + Σ len(arg_i) + n + 1`, and in the scenario
`client -p 4000 echo hello` with cwd `/tmp` the argument vector parses to
the two-element command, `payload = "/tmp\x00echo\x00hello\x00"` and
`payload_length = 16`. -/
theorem marshal_layout (cwd : List Nat) (args : List (List Nat))
    (hn : 1 ≤ args.length) (hc : 0 ∉ cwd) (ha : ∀ a ∈ args, 0 ∉ a) :
    prepare_payload cwd args = cwd ++ 0 :: joinFields args ∧
    (prepare_payload cwd args).length = prepare_amnt cwd args ∧
    prepare_payload [47, 116, 109, 112] [[101, 99, 104, 111], [104, 101, 108, 108, 111]] =
      [47, 116, 109, 112, 0, 101, 99, 104, 111, 0, 104, 101, 108, 108, 111, 0] ∧
    prepare_amnt [47, 116, 109, 112] [[101, 99, 104, 111], [104, 101, 108, 108, 111]] = 16 ∧
    parse_args ["client", "-p", "4000", "echo", "hello"] =
      some (4000, ["echo", "hello"]) ∧
    int32_to_msg 2 = [0, 0, 0, 2] := by
  refine ⟨rfl, ?_, rfl, rfl, by decide, by decide⟩
  simp only [prepare_payload, prepare_amnt, joinFields_length, List.map_cons,
    List.sum_cons, List.length_cons]
  omega

/-- Witness for C6 at the spec scenario (`/tmp`, `echo hello`). -/
theorem marshal_layout_witness :
    (prepare_payload [47, 116, 109, 112]
        [[101, 99, 104, 111], [104, 101, 108, 108, 111]]).length =
      prepare_amnt [47, 116, 109, 112]
        [[101, 99, 104, 111], [104, 101, 108, 108, 111]] :=
  (marshal_layout [47, 116, 109, 112]
    [[101, 99, 104, 111], [104, 101, 108, 108, 111]]
    (by decide) (by decide) (by decide)).2.1

/-- C7: splitting the marshalled payload at its NUL delimiters recovers
exactly the original cwd followed by the original argument sequence. -/
theorem marshal_unmarshal_roundtrip (cwd : List Nat) (args : List (List Nat))
    (hc : 0 ∉ cwd) (ha : ∀ a ∈ args, 0 ∉ a) :
    splitFields (prepare_payload cwd args) = cwd :: args := by
  unfold prepare_payload
  exact splitFields_joinFields (cwd :: args) (by
    intro f hf
    rcases List.mem_cons.mp hf with h | h
    · exact h ▸ hc
    · exact ha f h)

/-- Witness for C7 at cwd `/tmp`, arguments `echo hello`. -/
theorem marshal_unmarshal_roundtrip_witness :
    splitFields (prepare_payload [47, 116, 109, 112]
        [[101, 99, 104, 111], [104, 101, 108, 108, 111]]) =
      [47, 116, 109, 112] :: [[101, 99, 104, 111], [104, 101, 108, 108, 111]] :=
  marshal_unmarshal_roundtrip [47, 116, 109, 112]
    [[101, 99, 104, 111], [104, 101, 108, 108, 111]] (by decide) (by decide)

/-! ## Request send primitive — `send_all` (src/client.c:83-102) -/

lemma send_all_go_spec (rs : List SendResult) :
    ∀ len : Nat, respOk rs len →
      send_all_go rs len = (0, len) ∨ (send_all_go rs len).1 = -1 := by
  induction rs with
  | nil =>
    intro len h
    cases len with
    | zero => exact Or.inl rfl
    | succ n => exact Or.inr rfl
  | cons r rs ih =>
    intro len h
    cases len with
    | zero => left; cases r <;> rfl
    | succ n =>
      cases r with
      | none => exact Or.inr rfl
      | some k =>
        obtain ⟨hk, hrec⟩ := h
        rcases ih (n + 1 - k) hrec with h1 | h1
        · left
          simp only [send_all_go, h1]
          have : k + (n + 1 - k) = n + 1 := by omega
          rw [this]
        · right
          simp only [send_all_go, h1]

/-- C8: the send primitive either transmits the entire buffer and returns
success, or reports failure; it never returns success after transmitting
only part of the buffer. -/
theorem send_all_all_or_nothing (conn : Int) (rs : List SendResult)
    (len : Nat) (h : respOk rs len) :
    send_all conn rs len = (0, len) ∨ (send_all conn rs len).1 = -1 := by
  unfold send_all
  split
  · exact Or.inr rfl
  · exact send_all_go_spec rs len h

/-- Witness for C8: a 5-byte buffer sent in partial writes of 2 and 3
bytes succeeds with exactly 5 bytes transmitted. -/
theorem send_all_all_or_nothing_witness :
    send_all 3 [some 2, some 3] 5 = (0, 5) ∨
      (send_all 3 [some 2, some 3] 5).1 = -1 :=
  send_all_all_or_nothing 3 [some 2, some 3] 5 (by constructor <;> simp [respOk])

/-! ## Argument parsing — `str2int`, `parse_args` (src/client.c:168-261) -/

/-- C10: the `-p` option is recognised only under the invocation names
`client` and `./client`; under any other name (with at least one argument
to forward) nothing is consumed, the port stays at the default 3636 and
the whole vector — invocation name first, any `-p` token included — is
the remote command. -/
theorem default_invocation_forwarding (argv : List String)
    (h2 : 2 ≤ argv.length)
    (hn1 : argv.head? ≠ some "client") (hn2 : argv.head? ≠ some "./client") :
    parse_args argv = some (3636, argv) := by
  match argv, h2 with
  | name :: a1 :: rest, _ =>
    simp only [List.head?_cons, ne_eq, Option.some.injEq] at hn1 hn2
    have hname : ¬(name = PRG_NAME ∨ name = "./" ++ PRG_NAME) := by
      rintro (h | h)
      · exact hn1 h
      · exact hn2 h
    simp only [parse_args, List.length_cons]
    rw [if_neg (by omega), if_neg hname]
    rfl

/-- Witness for C10: a path-qualified invocation name forwards everything,
`-p 4000` included, at the default port. -/
theorem default_invocation_forwarding_witness :
    parse_args ["/usr/bin/client", "-p", "4000", "echo", "hi"] =
      some (3636, ["/usr/bin/client", "-p", "4000", "echo", "hi"]) :=
  default_invocation_forwarding
    ["/usr/bin/client", "-p", "4000", "echo", "hi"]
    (by decide) (by decide) (by decide)

/-! ## Entry-point patcher (src/arch/arch_aarch64.c) -/

/-- C9: applying the entry-point patch and immediately restoring it leaves
the 16-byte target region byte-for-byte unchanged, for any initial
contents; the restore offset is `16 - 8 = 8` and the trampoline is 16
bytes. -/
theorem patch_restore_roundtrip (s : ArchState) (hook : List Nat)
    (hmem : s.mem.length = 16) (hpatch : s.patch.length = 16)
    (hhook : hook.length = 8) :
    (arch_restore_start (arch_patch_start hook s)).1.mem = s.mem ∧
    (arch_restore_start (arch_patch_start hook s)).2 = 8 ∧
    ((arch_patch_start hook s).mem).length = 16 ∧
    patch_template.length = 16 := by
  refine ⟨rfl, ?_, ?_, rfl⟩
  · simp [arch_restore_start, arch_patch_start, hmem]
  · simp only [arch_patch_start, List.length_append, List.length_take, hhook]
    omega

/-- Witness for C9 on a concrete 16-byte region. -/
theorem patch_restore_roundtrip_witness :
    (arch_restore_start (arch_patch_start (List.replicate 8 9)
        ⟨List.replicate 16 7, patch_template, List.replicate 16 0⟩)).1.mem =
      List.replicate 16 7 :=
  (patch_restore_roundtrip
    ⟨List.replicate 16 7, patch_template, List.replicate 16 0⟩
    (List.replicate 8 9) (by decide) (by decide) (by decide)).1

/-! ## I/O relay loop — `events_error`, `handle_poll_event`, `main`
(src/client.c:266-282, 308-341, 396-421) -/

/-- With all three `events` fields holding the constant `POLLIN` that
`main` stores there, `events_error` cannot report anything. -/
lemma events_error_pollin (f0 f1 f2 : Pollfd) (h0 : f0.events = POLLIN)
    (h1 : f1.events = POLLIN) (h2 : f2.events = POLLIN) :
    events_error [f0, f1, f2] = false := by
  simp [events_error, h0, h1, h2, POLLIN, POLLHUP, POLLERR, POLLNVAL]

/-- C1 counterexample: remote stdout reaches EOF while remote stderr is
still open (and would deliver an EOF of its own in the next iteration).
The iteration closes and removes the stdout socket, but the relay loop
terminates at once: the stderr socket (fd 5) is never serviced again —
still open, never shut down — contradicting the claim that the loop
continues servicing the remaining sources. -/
theorem stdout_eof_stops_relay :
    (relayStep 7
        ⟨true, POLLIN, 0, 0, .rrEof, .rrData, .rrData, true, true, true⟩
        ⟨⟨4, POLLIN, 0⟩, ⟨5, POLLIN, 0⟩, ⟨0, POLLIN, 0⟩, []⟩).2 = false ∧
    (relayStep 7
        ⟨true, POLLIN, 0, 0, .rrEof, .rrData, .rrData, true, true, true⟩
        ⟨⟨4, POLLIN, 0⟩, ⟨5, POLLIN, 0⟩, ⟨0, POLLIN, 0⟩, []⟩).1.p0.fd = -1 ∧
    (relayRun 7
        [⟨true, POLLIN, 0, 0, .rrEof, .rrData, .rrData, true, true, true⟩,
         ⟨true, 0, POLLIN, 0, .rrData, .rrEof, .rrData, true, true, true⟩]
        ⟨⟨4, POLLIN, 0⟩, ⟨5, POLLIN, 0⟩, ⟨0, POLLIN, 0⟩, []⟩).p1.fd = 5 ∧
    (5 : Int) ∉ (relayRun 7
        [⟨true, POLLIN, 0, 0, .rrEof, .rrData, .rrData, true, true, true⟩,
         ⟨true, 0, POLLIN, 0, .rrData, .rrEof, .rrData, true, true, true⟩]
        ⟨⟨4, POLLIN, 0⟩, ⟨5, POLLIN, 0⟩, ⟨0, POLLIN, 0⟩, []⟩).closed := by
  decide

/-- C1 (amended): a zero-byte read or read error on a remote source —
the remote-stdout socket or the remote-stderr socket alike — shuts down
and closes that socket and removes it from future polling (`fd := -1`),
but the relay loop then terminates immediately instead of continuing with
the remaining sources.  For the stderr slot the iteration reaches it
whenever the stdout slot does not itself break, i.e. stdout is either not
ready or serviced by a clean chunk transfer. -/
theorem remote_eof_closes_and_terminates (sock_stdin : Int) (e : LoopEnv)
    (s : RelayState)
    (hpoll : e.pollOk = true)
    (hev0 : s.p0.events = POLLIN) (hev1 : s.p1.events = POLLIN)
    (hev2 : s.p2.events = POLLIN) :
    (s.p0.fd ≥ 0 → e.rev0 &&& POLLIN ≠ 0 →
      e.rr0 = .rrEof ∨ e.rr0 = .rrErr →
      (relayStep sock_stdin e s).1.p0.fd = -1 ∧
      s.p0.fd ∈ (relayStep sock_stdin e s).1.closed ∧
      (relayStep sock_stdin e s).2 = false) ∧
    (e.rev0 &&& POLLIN = 0 ∨ (e.rr0 = .rrData ∧ e.w0 = true) →
      s.p1.fd ≥ 0 → e.rev1 &&& POLLIN ≠ 0 →
      e.rr1 = .rrEof ∨ e.rr1 = .rrErr →
      (relayStep sock_stdin e s).1.p1.fd = -1 ∧
      s.p1.fd ∈ (relayStep sock_stdin e s).1.closed ∧
      (relayStep sock_stdin e s).2 = false) := by
  constructor
  · intro hfd hrev hrr
    rcases hrr with hrr | hrr <;>
      simp [relayStep, hpoll, events_error_pollin, pollFill, hev0, hev1, hev2,
        hfd, hrev, hrr, handle_poll_event]
  · intro h0 hfd1 hrev1 hrr1
    rcases h0 with h0 | ⟨hd, hw⟩
    · have hskip : ((if s.p0.fd ≥ 0 then e.rev0 else 0) &&& POLLIN) = 0 := by
        split
        · exact h0
        · simp
      rcases hrr1 with hrr1 | hrr1 <;>
        simp [relayStep, hpoll, events_error_pollin, pollFill, hev0, hev1,
          hev2, hskip, hfd1, hrev1, hrr1, handle_poll_event]
    · rcases hrr1 with hrr1 | hrr1 <;>
        simp [relayStep, hpoll, events_error_pollin, pollFill, hev0, hev1,
          hev2, hd, hw, hfd1, hrev1, hrr1, handle_poll_event]

/-- Witness for the amended C1 at concrete iterations: an EOF on the
remote-stdout socket (fd 4), and an EOF on the remote-stderr socket
(fd 5) in an iteration where stdout is not ready. -/
theorem remote_eof_closes_and_terminates_witness :
    ((relayStep 7
        ⟨true, POLLIN, 0, 0, .rrEof, .rrData, .rrData, true, true, true⟩
        ⟨⟨4, POLLIN, 0⟩, ⟨5, POLLIN, 0⟩, ⟨0, POLLIN, 0⟩, []⟩).1.p0.fd = -1 ∧
      (4 : Int) ∈ (relayStep 7
        ⟨true, POLLIN, 0, 0, .rrEof, .rrData, .rrData, true, true, true⟩
        ⟨⟨4, POLLIN, 0⟩, ⟨5, POLLIN, 0⟩, ⟨0, POLLIN, 0⟩, []⟩).1.closed ∧
      (relayStep 7
        ⟨true, POLLIN, 0, 0, .rrEof, .rrData, .rrData, true, true, true⟩
        ⟨⟨4, POLLIN, 0⟩, ⟨5, POLLIN, 0⟩, ⟨0, POLLIN, 0⟩, []⟩).2 = false) ∧
    ((relayStep 7
        ⟨true, 0, POLLIN, 0, .rrData, .rrEof, .rrData, true, true, true⟩
        ⟨⟨4, POLLIN, 0⟩, ⟨5, POLLIN, 0⟩, ⟨0, POLLIN, 0⟩, []⟩).1.p1.fd = -1 ∧
      (5 : Int) ∈ (relayStep 7
        ⟨true, 0, POLLIN, 0, .rrData, .rrEof, .rrData, true, true, true⟩
        ⟨⟨4, POLLIN, 0⟩, ⟨5, POLLIN, 0⟩, ⟨0, POLLIN, 0⟩, []⟩).1.closed ∧
      (relayStep 7
        ⟨true, 0, POLLIN, 0, .rrData, .rrEof, .rrData, true, true, true⟩
        ⟨⟨4, POLLIN, 0⟩, ⟨5, POLLIN, 0⟩, ⟨0, POLLIN, 0⟩, []⟩).2 = false) :=
  ⟨(remote_eof_closes_and_terminates 7
      ⟨true, POLLIN, 0, 0, .rrEof, .rrData, .rrData, true, true, true⟩
      ⟨⟨4, POLLIN, 0⟩, ⟨5, POLLIN, 0⟩, ⟨0, POLLIN, 0⟩, []⟩
      rfl rfl rfl rfl).1 (by decide) (by decide) (Or.inl rfl),
    (remote_eof_closes_and_terminates 7
      ⟨true, 0, POLLIN, 0, .rrData, .rrEof, .rrData, true, true, true⟩
      ⟨⟨4, POLLIN, 0⟩, ⟨5, POLLIN, 0⟩, ⟨0, POLLIN, 0⟩, []⟩
      rfl rfl rfl rfl).2 (Or.inl (by decide)) (by decide) (by decide)
      (Or.inl rfl)⟩

/-- C2 (code bug): `events_error` reads the request field `events` — set
once to `POLLIN` and never touched by `poll` — instead of `revents`, so a
hangup/error/invalid-descriptor condition reported by `poll` is never
detected: with `revents = POLLHUP` on all three descriptors the check
returns 0 and the iteration continues to the next wait instead of
terminating the loop.  (A failing `poll` call itself does terminate it.) -/
theorem pollhup_not_detected :
    events_error [⟨4, POLLIN, POLLHUP⟩, ⟨5, POLLIN, POLLHUP⟩,
      ⟨0, POLLIN, POLLHUP⟩] = false ∧
    (relayStep 7
        ⟨true, POLLHUP, POLLHUP, POLLHUP, .rrData, .rrData, .rrData,
          true, true, true⟩
        ⟨⟨4, POLLIN, 0⟩, ⟨5, POLLIN, 0⟩, ⟨0, POLLIN, 0⟩, []⟩).2 = true ∧
    (relayStep 7
        ⟨false, POLLIN, 0, 0, .rrData, .rrData, .rrData, true, true, true⟩
        ⟨⟨4, POLLIN, 0⟩, ⟨5, POLLIN, 0⟩, ⟨0, POLLIN, 0⟩, []⟩).2 = false := by
  decide

/-! ## Connection establishment order — `main` (src/client.c:374-391),
`do_connect` (src/client.c:287-303) -/

/-- C3 counterexample: when the connect to the stdout port (`base+1`)
fails, the process does die — but the whole framed request has already
been sent on the control connection, so the run refutes "terminates
before any data has been sent on any connection". -/
theorem io_connect_failure_after_send :
    clientStartup 4000 ⟨fun p => p != 4001, fun _ => true⟩ =
      [Action.conn 4000 true, Action.send 0 true, Action.send 1 true,
        Action.send 2 true, Action.conn 4001 false, Action.die] ∧
    hasFatalConn (clientStartup 4000 ⟨fun p => p != 4001, fun _ => true⟩) = true ∧
    (clientStartup 4000 ⟨fun p => p != 4001, fun _ => true⟩).getLast? =
      some Action.die ∧
    sentData (clientStartup 4000 ⟨fun p => p != 4001, fun _ => true⟩) = true := by
  decide

/-- C3 (amended): the four loopback connects happen in the fixed order
`base`, `base+1`, `base+2`, `base+3` and any failure is immediately fatal
(the trace ends with `die` right after the failing connect); a control
connect failure happens before any data is sent, while the three I/O
connects are attempted only after the request has been sent on the
control connection. -/
theorem connect_failure_fatal_order (port : Nat) (env : StartupEnv) :
    (env.connOk port = false →
      clientStartup port env = [Action.conn port false, Action.die] ∧
      sentData (clientStartup port env) = false) ∧
    (env.connOk port = true → env.sendOk 0 = true → env.sendOk 1 = true →
      env.sendOk 2 = true →
      (env.connOk (port + 1) = false →
        clientStartup port env =
          [Action.conn port true, Action.send 0 true, Action.send 1 true,
            Action.send 2 true, Action.conn (port + 1) false, Action.die]) ∧
      (env.connOk (port + 1) = true → env.connOk (port + 2) = false →
        clientStartup port env =
          [Action.conn port true, Action.send 0 true, Action.send 1 true,
            Action.send 2 true, Action.conn (port + 1) true,
            Action.conn (port + 2) false, Action.die]) ∧
      (env.connOk (port + 1) = true → env.connOk (port + 2) = true →
        env.connOk (port + 3) = false →
        clientStartup port env =
          [Action.conn port true, Action.send 0 true, Action.send 1 true,
            Action.send 2 true, Action.conn (port + 1) true,
            Action.conn (port + 2) true, Action.conn (port + 3) false,
            Action.die]) ∧
      (env.connOk (port + 1) = true → env.connOk (port + 2) = true →
        env.connOk (port + 3) = true →
        clientStartup port env =
          [Action.conn port true, Action.send 0 true, Action.send 1 true,
            Action.send 2 true, Action.conn (port + 1) true,
            Action.conn (port + 2) true, Action.conn (port + 3) true,
            Action.relay])) := by
  constructor
  · intro h
    constructor
    · simp [clientStartup, h]
    · simp [clientStartup, h, sentData]
  · intro h0 hs0 hs1 hs2
    refine ⟨?_, ?_, ?_, ?_⟩ <;> intros <;>
      simp_all [clientStartup]

/-- Witness for the amended C3: a failing control connect dies with no
data sent. -/
theorem connect_failure_fatal_order_witness :
    clientStartup 4000 ⟨fun _ => false, fun _ => true⟩ =
      [Action.conn 4000 false, Action.die] ∧
    sentData (clientStartup 4000 ⟨fun _ => false, fun _ => true⟩) = false :=
  (connect_failure_fatal_order 4000 ⟨fun _ => false, fun _ => true⟩).1 rfl

end Preloader
